import Mathlib

/-!
Verification of the FOMC rate-probability calculator (`src/test2.py`).

The program derives implied overnight rates from futures prices, builds a
start/end rate path over the months Aug–Dec (non-meeting months 8 and 10,
FOMC meeting months 9, 11, 12), solves each meeting month's post-decision
rate from a day-weighted average, and decomposes each meeting's expected
rate change into probabilities over whole 0.25% policy steps.

Rates are embedded as `ℚ` (the Python floats 0.25, 5.25, 100 are exactly
representable, and the claims are stated for exact rational arithmetic).
The Python dicts `effr_start` / `effr_end` are embedded as partial maps
`ℕ → Option ℚ`; a Python exception (KeyError on a missing dict key,
ZeroDivisionError on division by zero) is embedded as an error message that
aborts the remainder of the computation while keeping the mutations already
performed, exactly as an uncaught Python exception would.  The fetch stage
(out of scope per the spec) is abstracted as the partial map
`implied : ℕ → Option ℚ` of implied rates per month, `none` for a month
with missing data.
-/

namespace Myenv

/-- `CURRENT_TARGET_RATE = 5.25` (src/test2.py line 7). -/
def CURRENT_TARGET_RATE : ℚ := 21/4

/-- `RATE_CHANGE = 0.25` (src/test2.py line 8). -/
def RATE_CHANGE : ℚ := 1/4

/-- `NON_MEETING_MONTHS = [8, 10]` (src/test2.py line 18). -/
def NON_MEETING_MONTHS : List ℕ := [8, 10]

/-- `FOMC_MEETING_DATES = {9: 17, 11: 6, 12: 13}` (src/test2.py lines 12–16),
as the ordered association list the Python loop iterates. -/
def FOMC_MEETING_DATES : List (ℕ × ℕ) := [(9, 17), (11, 6), (12, 13)]

/-- `calculate_implied_rate` (src/test2.py lines 32–33): `100 - contract_price`. -/
def calculate_implied_rate (contract_price : ℚ) : ℚ :=
  100 - contract_price

/-- `convert_inverse`, the inverse named by the spec's round-trip property
(spec §8: `convert_inverse(r) = 100 - r`); not present in the source. -/
def convert_inverse (r : ℚ) : ℚ := 100 - r

/-- `calculate_probabilities` (src/test2.py lines 35–52).  Returns
`(whole_changes, prob_whole_change, prob_next_change)`.  `math.floor`
rounds toward negative infinity, which is `Int.floor` on `ℚ`. -/
def calculate_probabilities (start_rate end_rate : ℚ) : ℤ × ℚ × ℚ :=
  let expected_change := end_rate - start_rate
  let num_changes := expected_change / RATE_CHANGE
  let whole_changes : ℤ := ⌊num_changes⌋
  let fractional_change : ℚ := |num_changes - (whole_changes : ℚ)|
  if expected_change < 0 then
    (whole_changes, 1 - fractional_change, fractional_change)
  else
    (whole_changes, fractional_change, 1 - fractional_change)

/-- The spec's reference algorithm for the probability decomposer, written
from the words of spec §4.5 / claim C1: `num_steps = (end_rate - start_rate) / 0.25`,
`whole_steps = floor(num_steps)` toward negative infinity,
`fractional = abs(num_steps - whole_steps)`; the cut branch when
`expected_change < 0` returns `(1 - fractional, fractional)`, the hike branch
(including `expected_change == 0`) returns `(fractional, 1 - fractional)`. -/
def spec_probabilities (start_rate end_rate : ℚ) : ℤ × ℚ × ℚ :=
  let expected_change := end_rate - start_rate
  let num_steps := (end_rate - start_rate) / (1/4 : ℚ)
  let whole_steps : ℤ := ⌊num_steps⌋
  let fractional : ℚ := |num_steps - (whole_steps : ℚ)|
  if expected_change < 0 then
    (whole_steps, 1 - fractional, fractional)
  else
    (whole_steps, fractional, 1 - fractional)

/-- The meeting-day rate solver formula (src/test2.py line 122):
`effr_end[month] = (implied_rate - (n_days_before/(n_days_before+n_days_after)) * effr_start[month])
/ (n_days_after/(n_days_before+n_days_after))`, with the day counts as integers. -/
def solve_effr_end (implied_rate effr_start : ℚ) (n_days_before n_days_after : ℤ) : ℚ :=
  (implied_rate -
      ((n_days_before : ℚ) / ((n_days_before : ℚ) + (n_days_after : ℚ))) * effr_start)
    / ((n_days_after : ℚ) / ((n_days_before : ℚ) + (n_days_after : ℚ)))

/-!
## The `calculate` endpoint's anchor-building loops (src/test2.py lines 59–147)
-/

/-- The request-local mutable state: the Python dicts `effr_start` and
`effr_end`, plus a trace recording every assignment ever made to
`effr_start` in order (to state the never-overwritten invariant). -/
structure St where
  effr_start : ℕ → Option ℚ
  effr_end : ℕ → Option ℚ
  startTrace : List (ℕ × ℚ)

/-- The state at the top of `calculate`: both dicts empty. -/
def St.empty : St := ⟨fun _ => none, fun _ => none, []⟩

/-- `effr_start[m] = v`. -/
def St.setStart (s : St) (m : ℕ) (v : ℚ) : St :=
  ⟨fun k => if k = m then some v else s.effr_start k, s.effr_end,
    s.startTrace ++ [(m, v)]⟩

/-- `effr_end[m] = v`. -/
def St.setEnd (s : St) (m : ℕ) (v : ℚ) : St :=
  ⟨s.effr_start, fun k => if k = m then some v else s.effr_end k, s.startTrace⟩

/-- Runs a Python `for`-loop body over a list.  A `some msg` component is an
uncaught Python exception: it stops the loop, keeping the state mutations
already performed. -/
def runLoop {α : Type} (body : α → St → St × Option String) :
    List α → St → St × Option String
  | [], s => (s, none)
  | a :: rest, s =>
    match body a s with
    | (s', none) => runLoop body rest s'
    | (s', some e) => (s', some e)

/-- One iteration of the non-meeting-month loop (src/test2.py lines 83–94),
at index `i` over `months`.  A lookup of a missing dict key is a `KeyError`. -/
def nonMeetingStep (implied : ℕ → Option ℚ) (months : List ℕ)
    (i : ℕ) (month : ℕ) (s : St) : St × Option String :=
  match implied month with
  | none => (s, none)
  | some rate =>
    let s1 := s.setEnd month rate
    let afterLink : St × Option String :=
      if i > 0 then
        match months.get? (i - 1) with
        | some prev_month =>
          match s1.effr_end prev_month with
          | some v => (s1.setStart month v, none)
          | none => (s1, some "KeyError")
        | none => (s1, some "IndexError")
      else (s1, none)
    match afterLink with
    | (s2, some e) => (s2, some e)
    | (s2, none) =>
      if i < months.length - 1 then
        match months.get? (i + 1) with
        | some next_month =>
          match s2.effr_end month with
          | some v => (s2.setStart next_month v, none)
          | none => (s2, some "KeyError")
        | none => (s2, some "IndexError")
      else (s2, none)

/-- The non-meeting-month loop: `for i, month in enumerate(months)`. -/
def nonMeetingLoop (implied : ℕ → Option ℚ) (months : List ℕ)
    (s : St) : St × Option String :=
  runLoop (fun p => nonMeetingStep implied months p.1 p.2) months.enum s

/-- The `effr_start` fallback of the meeting loop (src/test2.py lines 102–106):
the previous chronological month's `effr_end` when that key is present,
else `CURRENT_TARGET_RATE`. -/
def prevOr (s : St) (month : ℕ) : ℚ :=
  match s.effr_end (month - 1) with
  | some v => v
  | none => CURRENT_TARGET_RATE

/-- One iteration of the FOMC meeting-month loop (src/test2.py lines 97–124)
for `entry = (month, meeting_day)`.  The `effr_start` fallback is assigned
before the missing-implied-rate check, exactly as in the source; the two
inner divisions share the denominator `n_days_before + n_days_after`, and a
zero divisor is a `ZeroDivisionError`. -/
def meetingStep (implied : ℕ → Option ℚ) (entry : ℕ × ℕ) (s : St) :
    St × Option String :=
  let month := entry.1
  let meeting_day := entry.2
  let days_in_month : ℤ := if month = 12 then 31 else 30
  let prev_month := month - 1
  let s1 :=
    match s.effr_end prev_month with
    | some v => s.setStart month v
    | none => s.setStart month CURRENT_TARGET_RATE
  match implied month with
  | none => (s1, none)
  | some implied_rate =>
    let n_days_before : ℤ := (meeting_day : ℤ) - 1
    let n_days_after : ℤ := days_in_month - n_days_before
    match s1.effr_start month with
    | none => (s1, some "KeyError")
    | some start_val =>
      if (n_days_before : ℚ) + (n_days_after : ℚ) = 0 then
        (s1, some "ZeroDivisionError")
      else
        if ((n_days_after : ℚ) / ((n_days_before : ℚ) + (n_days_after : ℚ))) = 0 then
          (s1, some "ZeroDivisionError")
        else
          (s1.setEnd month
            ((implied_rate -
                ((n_days_before : ℚ) / ((n_days_before : ℚ) + (n_days_after : ℚ)))
                  * start_val)
              / ((n_days_after : ℚ) / ((n_days_before : ℚ) + (n_days_after : ℚ)))),
            none)

/-- The meeting-month loop over an ordered calendar of `(month, meeting_day)`. -/
def meetingLoop (implied : ℕ → Option ℚ) (calendar : List (ℕ × ℕ))
    (s : St) : St × Option String :=
  runLoop (meetingStep implied) calendar s

/-- The whole anchor-building computation of the endpoint: the non-meeting
loop over `NON_MEETING_MONTHS`, then (if no exception escaped) the meeting
loop over `FOMC_MEETING_DATES`. -/
def runCalculate (implied : ℕ → Option ℚ) : St × Option String :=
  match nonMeetingLoop implied NON_MEETING_MONTHS St.empty with
  | (s, some e) => (s, some e)
  | (s, none) => meetingLoop implied FOMC_MEETING_DATES s

/-- The probability stage (src/test2.py lines 127–132): one output per
FOMC month present in both `effr_start` and `effr_end`. -/
def probOutputs (s : St) : List (ℕ × ℤ × ℚ × ℚ) :=
  FOMC_MEETING_DATES.filterMap fun entry =>
    match s.effr_start entry.1, s.effr_end entry.1 with
    | some start_rate, some end_rate =>
      some (entry.1, calculate_probabilities start_rate end_rate)
    | _, _ => none

/-- The result of the non-meeting loop on the program's month list `[8, 10]`,
as a function of which quotes are present (proved equal to the loop in
`nonMeetingLoop_run`). -/
def nonMeetingResult (implied : ℕ → Option ℚ) : St × Option String :=
  match implied 8, implied 10 with
  | none, none => (St.empty, none)
  | some r8, none => ((St.empty.setEnd 8 r8).setStart 10 r8, none)
  | some r8, some r10 =>
    ((((St.empty.setEnd 8 r8).setStart 10 r8).setEnd 10 r10).setStart 10 r8, none)
  | none, some r10 => (St.empty.setEnd 10 r10, some "KeyError")

/-- The result of one meeting pass with day counts `db`/`da`, as a function
of the input state (proved equal to `meetingStep` at each calendar entry in
`meetingStep_run_9/11/12`). -/
def meetingStepResult (implied : ℕ → Option ℚ) (month : ℕ) (db da : ℤ)
    (s : St) : St × Option String :=
  match implied month with
  | none => (s.setStart month (prevOr s month), none)
  | some r =>
    ((s.setStart month (prevOr s month)).setEnd month
        (solve_effr_end r (prevOr s month) db da), none)

/-- Concrete input for the degenerate-calendar run: implied rates present
for months 9 and 11. -/
def impliedC4 : ℕ → Option ℚ := fun m =>
  if m = 9 then some (53/10) else if m = 11 then some (53/10) else none

/-- Concrete input with month 10's quote missing while months 8, 9, 11 have
quotes (all with implied rate 5, so month 9's solved anchor is 5 ≠ 5.25). -/
def impliedC5 : ℕ → Option ℚ := fun m =>
  if m = 8 then some 5 else if m = 9 then some 5 else if m = 11 then some 5 else none

/-- Concrete input with every month's quote missing. -/
def impliedC6 : ℕ → Option ℚ := fun _ => none

/-!
## Helper evaluation lemmas
-/

@[simp] theorem St.empty_start (k : ℕ) : St.empty.effr_start k = none := rfl

@[simp] theorem St.empty_end (k : ℕ) : St.empty.effr_end k = none := rfl

@[simp] theorem St.empty_trace : St.empty.startTrace = [] := rfl

@[simp] theorem St.setStart_start (s : St) (m k : ℕ) (v : ℚ) :
    (s.setStart m v).effr_start k = if k = m then some v else s.effr_start k := rfl

@[simp] theorem St.setStart_end (s : St) (m k : ℕ) (v : ℚ) :
    (s.setStart m v).effr_end k = s.effr_end k := rfl

@[simp] theorem St.setStart_trace (s : St) (m : ℕ) (v : ℚ) :
    (s.setStart m v).startTrace = s.startTrace ++ [(m, v)] := rfl

@[simp] theorem St.setEnd_start (s : St) (m k : ℕ) (v : ℚ) :
    (s.setEnd m v).effr_start k = s.effr_start k := rfl

@[simp] theorem St.setEnd_end (s : St) (m k : ℕ) (v : ℚ) :
    (s.setEnd m v).effr_end k = if k = m then some v else s.effr_end k := rfl

@[simp] theorem St.setEnd_trace (s : St) (m : ℕ) (v : ℚ) :
    (s.setEnd m v).startTrace = s.startTrace := rfl

theorem runLoop_nil {α : Type} (body : α → St → St × Option String) (s : St) :
    runLoop body [] s = (s, none) := rfl

theorem runLoop_cons_ok {α : Type} (body : α → St → St × Option String)
    (a : α) (rest : List α) (s s1 : St) (h : body a s = (s1, none)) :
    runLoop body (a :: rest) s = runLoop body rest s1 := by
  simp [runLoop, h]

theorem runLoop_cons_err {α : Type} (body : α → St → St × Option String)
    (a : α) (rest : List α) (s s1 : St) (e : String) (h : body a s = (s1, some e)) :
    runLoop body (a :: rest) s = (s1, some e) := by
  simp [runLoop, h]

/-- Evaluation of the non-meeting loop: both quotes missing. -/
theorem nonMeetingLoop_eval_nn (implied : ℕ → Option ℚ)
    (h8 : implied 8 = none) (h10 : implied 10 = none) :
    nonMeetingLoop implied NON_MEETING_MONTHS St.empty = (St.empty, none) := by
  simp [nonMeetingLoop, NON_MEETING_MONTHS, List.enum, List.enumFrom,
    runLoop, nonMeetingStep, h8, h10]

/-- Evaluation of the non-meeting loop: month 8 present, month 10 missing.
Month 8's pass seeds `effr_start[10]`. -/
theorem nonMeetingLoop_eval_sn (implied : ℕ → Option ℚ) (r8 : ℚ)
    (h8 : implied 8 = some r8) (h10 : implied 10 = none) :
    nonMeetingLoop implied NON_MEETING_MONTHS St.empty =
      ((St.empty.setEnd 8 r8).setStart 10 r8, none) := by
  simp [nonMeetingLoop, NON_MEETING_MONTHS, List.enum, List.enumFrom,
    runLoop, nonMeetingStep, h8, h10, St.setEnd, St.setStart, List.get?]

/-- Evaluation of the non-meeting loop: both months present.
`effr_start[10]` is assigned twice with the same value `r8`. -/
theorem nonMeetingLoop_eval_ss (implied : ℕ → Option ℚ) (r8 r10 : ℚ)
    (h8 : implied 8 = some r8) (h10 : implied 10 = some r10) :
    nonMeetingLoop implied NON_MEETING_MONTHS St.empty =
      ((((St.empty.setEnd 8 r8).setStart 10 r8).setEnd 10 r10).setStart 10 r8,
        none) := by
  simp [nonMeetingLoop, NON_MEETING_MONTHS, List.enum, List.enumFrom,
    runLoop, nonMeetingStep, h8, h10, St.setEnd, St.setStart, List.get?]

/-- Evaluation of the non-meeting loop: month 8 missing, month 10 present.
The lookup `effr_end[8]` raises a `KeyError` that aborts the computation,
after `effr_end[10]` has already been assigned. -/
theorem nonMeetingLoop_eval_ns (implied : ℕ → Option ℚ) (r10 : ℚ)
    (h8 : implied 8 = none) (h10 : implied 10 = some r10) :
    nonMeetingLoop implied NON_MEETING_MONTHS St.empty =
      (St.empty.setEnd 10 r10, some "KeyError") := by
  simp [nonMeetingLoop, NON_MEETING_MONTHS, List.enum, List.enumFrom,
    runLoop, nonMeetingStep, h8, h10, St.setEnd, St.setStart, List.get?]

/-- A meeting month with a missing implied rate still assigns its fallback
`effr_start` before the `continue`. -/
theorem meetingStep_eval_none (implied : ℕ → Option ℚ) (month day : ℕ) (s : St)
    (him : implied month = none) :
    meetingStep implied (month, day) s = (s.setStart month (prevOr s month), none) := by
  simp only [meetingStep, him, prevOr]
  cases s.effr_end (month - 1) <;> simp

/-- September's meeting pass (entry `(9, 17)`, so 16 days before and 14 days
after the decision) assigns the fallback `effr_start` and the solved
`effr_end`. -/
theorem meetingStep_eval_9 (implied : ℕ → Option ℚ) (s : St) (r : ℚ)
    (him : implied 9 = some r) :
    meetingStep implied (9, 17) s =
      ((s.setStart 9 (prevOr s 9)).setEnd 9 (solve_effr_end r (prevOr s 9) 16 14),
        none) := by
  simp only [meetingStep, him, prevOr, solve_effr_end]
  cases s.effr_end 8 <;> norm_num [St.setStart, St.setEnd]

/-- November's meeting pass (entry `(11, 6)`, so 5 days before and 25 days
after the decision). -/
theorem meetingStep_eval_11 (implied : ℕ → Option ℚ) (s : St) (r : ℚ)
    (him : implied 11 = some r) :
    meetingStep implied (11, 6) s =
      ((s.setStart 11 (prevOr s 11)).setEnd 11 (solve_effr_end r (prevOr s 11) 5 25),
        none) := by
  simp only [meetingStep, him, prevOr, solve_effr_end]
  cases s.effr_end 10 <;> norm_num [St.setStart, St.setEnd]

/-- December's meeting pass (entry `(12, 13)`, 31 days in the month, so 12
days before and 19 days after the decision). -/
theorem meetingStep_eval_12 (implied : ℕ → Option ℚ) (s : St) (r : ℚ)
    (him : implied 12 = some r) :
    meetingStep implied (12, 13) s =
      ((s.setStart 12 (prevOr s 12)).setEnd 12 (solve_effr_end r (prevOr s 12) 12 19),
        none) := by
  simp only [meetingStep, him, prevOr, solve_effr_end]
  cases s.effr_end 11 <;> norm_num [St.setStart, St.setEnd]

/-- The non-meeting loop computes `nonMeetingResult`. -/
theorem nonMeetingLoop_run (implied : ℕ → Option ℚ) :
    nonMeetingLoop implied NON_MEETING_MONTHS St.empty = nonMeetingResult implied := by
  cases h8 : implied 8 <;> cases h10 : implied 10
  · rw [nonMeetingLoop_eval_nn implied h8 h10]
    simp [nonMeetingResult, h8, h10]
  · rw [nonMeetingLoop_eval_ns implied _ h8 h10]
    simp [nonMeetingResult, h8, h10]
  · rw [nonMeetingLoop_eval_sn implied _ h8 h10]
    simp [nonMeetingResult, h8, h10]
  · rw [nonMeetingLoop_eval_ss implied _ _ h8 h10]
    simp [nonMeetingResult, h8, h10]

/-- September's meeting pass computes `meetingStepResult` with 16/14 days. -/
theorem meetingStep_run_9 (implied : ℕ → Option ℚ) (s : St) :
    meetingStep implied (9, 17) s = meetingStepResult implied 9 16 14 s := by
  cases him : implied 9
  · rw [meetingStep_eval_none implied 9 17 s him]
    simp [meetingStepResult, him]
  · rw [meetingStep_eval_9 implied s _ him]
    simp [meetingStepResult, him]

/-- November's meeting pass computes `meetingStepResult` with 5/25 days. -/
theorem meetingStep_run_11 (implied : ℕ → Option ℚ) (s : St) :
    meetingStep implied (11, 6) s = meetingStepResult implied 11 5 25 s := by
  cases him : implied 11
  · rw [meetingStep_eval_none implied 11 6 s him]
    simp [meetingStepResult, him]
  · rw [meetingStep_eval_11 implied s _ him]
    simp [meetingStepResult, him]

/-- December's meeting pass computes `meetingStepResult` with 12/19 days. -/
theorem meetingStep_run_12 (implied : ℕ → Option ℚ) (s : St) :
    meetingStep implied (12, 13) s = meetingStepResult implied 12 12 19 s := by
  cases him : implied 12
  · rw [meetingStep_eval_none implied 12 13 s him]
    simp [meetingStepResult, him]
  · rw [meetingStep_eval_12 implied s _ him]
    simp [meetingStepResult, him]

/-!
## The claims
-/

/-- C1: the probability decomposer of the source equals the spec's reference
algorithm on every pair of rational rates with step size 0.25: same whole
step count (floor toward negative infinity), and the same pair of
probabilities, with the cut branch taken exactly when `expected_change < 0`
and `expected_change == 0` routed to the hike branch. -/
theorem C1_decomposer_matches_spec (start_rate end_rate : ℚ) :
    calculate_probabilities start_rate end_rate = spec_probabilities start_rate end_rate := rfl

/-- C2: the two probabilities returned by the probability decomposer sum to 1,
exactly, for every pair of rational rates. -/
theorem C2_probabilities_sum_to_one (start_rate end_rate : ℚ) :
    (calculate_probabilities start_rate end_rate).2.1 +
      (calculate_probabilities start_rate end_rate).2.2 = 1 := by
  simp only [calculate_probabilities]
  split_ifs <;> ring

/-- C3: re-plugging the solved `end_rate` into the day-weighted average
equation reproduces the implied rate, for every `days_before ≥ 0` and
`days_after > 0`. -/
theorem C3_solver_satisfies_weighted_average (implied_rate effr_start : ℚ)
    (n_days_before n_days_after : ℤ)
    (hb : 0 ≤ n_days_before) (ha : 0 < n_days_after) :
    ((n_days_before : ℚ) * effr_start +
        (n_days_after : ℚ) * solve_effr_end implied_rate effr_start n_days_before n_days_after)
      / ((n_days_before : ℚ) + (n_days_after : ℚ)) = implied_rate := by
  have ha' : (n_days_after : ℚ) ≠ 0 := by
    exact_mod_cast ha.ne'
  have hsum : (n_days_before : ℚ) + (n_days_after : ℚ) ≠ 0 := by
    have : (0 : ℚ) < (n_days_before : ℚ) + (n_days_after : ℚ) := by
      have hb' : (0 : ℚ) ≤ (n_days_before : ℚ) := by exact_mod_cast hb
      have ha'' : (0 : ℚ) < (n_days_after : ℚ) := by exact_mod_cast ha
      linarith
    exact this.ne'
  unfold solve_effr_end
  field_simp

/-- C3 witness: the spec's own test point `implied_rate = 5.30`,
`start_rate = 5.25`, `days_before = 16`, `days_after = 14`. -/
theorem C3_solver_witness :
    (0 : ℤ) ≤ 16 ∧ (0 : ℤ) < 14 ∧
      ((16 : ℚ) * (21/4) + (14 : ℚ) * solve_effr_end (53/10) (21/4) 16 14)
        / ((16 : ℚ) + (14 : ℚ)) = 53/10 :=
  ⟨by decide, by decide,
    C3_solver_satisfies_weighted_average (53/10) (21/4) 16 14 (by decide) (by decide)⟩

/-- C9: the implied rate converter returns exactly `100 - price` for every
price (a total pure function, no error conditions, no side effects), and it
round-trips with the spec's inverse `convert_inverse(r) = 100 - r`. -/
theorem C9_converter_roundtrip :
    (∀ price : ℚ, calculate_implied_rate price = 100 - price) ∧
    (∀ x : ℚ, calculate_implied_rate (convert_inverse x) = x) :=
  ⟨fun _ => rfl, fun x => by
    simp [calculate_implied_rate, convert_inverse]⟩

/-- C10: when `end_rate - start_rate` is a non-negative integer multiple `k`
of the 0.25 step, the fractional part is 0 and the hike branch returns
probability 0 for the whole step count `k` and probability 1 for the next
increment; in particular `calculate_probabilities r r = (0, 0, 1)`. -/
theorem C10_exact_multiple_hike (start_rate end_rate : ℚ) (k : ℕ)
    (h : end_rate - start_rate = (k : ℚ) * RATE_CHANGE) :
    calculate_probabilities start_rate end_rate = ((k : ℤ), 0, 1) ∧
      ∀ r : ℚ, calculate_probabilities r r = (0, 0, 1) := by
  constructor
  · have hnum : (end_rate - start_rate) / RATE_CHANGE = (k : ℚ) := by
      rw [h, RATE_CHANGE]
      norm_num
    have hnonneg : ¬ (end_rate - start_rate < 0) := by
      rw [h, RATE_CHANGE]
      push_neg
      positivity
    simp only [calculate_probabilities, hnum, hnonneg, if_false]
    norm_num
  · intro r
    simp [calculate_probabilities]

/-- C10 witness: `start_rate = 5`, `end_rate = 5.25` is one whole step up;
the decomposer returns `(1, 0, 1)`. -/
theorem C10_exact_multiple_witness :
    (21/4 : ℚ) - 5 = (1 : ℕ) * RATE_CHANGE ∧
      calculate_probabilities 5 (21/4) = (((1 : ℕ) : ℤ), 0, 1) :=
  ⟨by norm_num [RATE_CHANGE],
    (C10_exact_multiple_hike 5 (21/4) 1 (by norm_num [RATE_CHANGE])).1⟩

/-- C4: on a meeting month whose day split is degenerate (`days_after = 0`,
here meeting day 31 in a 30-day month), the solver's division by zero is an
uncaught `ZeroDivisionError` that aborts the whole meeting loop: no
per-month error entry exists, the degenerate month gets no `effr_end`, and
the following month (11, with its quote present) is never processed. -/
theorem C4_degenerate_split_aborts :
    (meetingLoop impliedC4 [(9, 31), (11, 6)] St.empty).2 = some "ZeroDivisionError" ∧
    (meetingLoop impliedC4 [(9, 31), (11, 6)] St.empty).1.effr_end 9 = none ∧
    (meetingLoop impliedC4 [(9, 31), (11, 6)] St.empty).1.effr_start 11 = none := by
  norm_num [meetingLoop, runLoop, meetingStep, impliedC4, St.empty, St.setStart,
    St.setEnd, CURRENT_TARGET_RATE]

/-- C5 counterexample: with month 10's quote missing and months 8, 9, 11
present (all at implied rate 5), the nearest available preceding anchor for
meeting month 11 is month 9's solved `effr_end = 5`, yet the code assigns
`effr_start[11] = CURRENT_TARGET_RATE = 5.25 ≠ 5`, because it only consults
`effr_end[10]`. -/
theorem C5_counterexample :
    impliedC5 10 = none ∧
    (runCalculate impliedC5).2 = none ∧
    (runCalculate impliedC5).1.effr_end 9 = some 5 ∧
    (runCalculate impliedC5).1.effr_end 10 = none ∧
    (runCalculate impliedC5).1.effr_start 11 = some CURRENT_TARGET_RATE ∧
    CURRENT_TARGET_RATE ≠ (5 : ℚ) := by
  norm_num [runCalculate, nonMeetingLoop, meetingLoop, runLoop, nonMeetingStep,
    meetingStep, St.empty, St.setStart, St.setEnd, impliedC5, NON_MEETING_MONTHS,
    FOMC_MEETING_DATES, CURRENT_TARGET_RATE, List.enum, List.enumFrom, List.get?]

/-- C5 amended: the fallback `start_rate` a meeting pass assigns is the
immediately preceding calendar month's `effr_end` when that key is present,
and `CURRENT_TARGET_RATE` otherwise (`prevOr`); earlier anchors are never
consulted, and an absent value is never treated as zero — the assigned
start is always `some (prevOr s month)`. -/
theorem C5_fallback_uses_prev_month_only (implied : ℕ → Option ℚ)
    (entry : ℕ × ℕ) (s : St) :
    (meetingStep implied entry s).1.effr_start entry.1 = some (prevOr s entry.1) := by
  rcases entry with ⟨month, day⟩
  cases h : s.effr_end (month - 1) <;>
    cases him : implied month <;>
      simp only [meetingStep, prevOr, h, him, St.setStart, St.setEnd] <;>
        split_ifs <;> simp

/-- C6 counterexample: with every quote missing, meeting month 9 has no
implied rate, yet a `start_rate` entry IS recorded for it (the fallback is
assigned before the missing-quote check). -/
theorem C6_counterexample :
    impliedC6 9 = none ∧
    (runCalculate impliedC6).1.effr_start 9 = some CURRENT_TARGET_RATE := by
  norm_num [runCalculate, nonMeetingLoop, meetingLoop, runLoop, nonMeetingStep,
    meetingStep, St.empty, St.setStart, St.setEnd, impliedC6, NON_MEETING_MONTHS,
    FOMC_MEETING_DATES, List.enum, List.enumFrom, List.get?]

set_option maxHeartbeats 6400000 in
/-- C6 amended: a meeting month with no implied rate still gets a fallback
`start_rate` entry, but no `effr_end` entry and no probability output,
while every other meeting month whose quote is present still gets its
solved `effr_end` — provided the computation completes (a missing month-8
quote with month 10 present aborts everything with a `KeyError`). -/
theorem C6_missing_quote_no_end_no_output (implied : ℕ → Option ℚ) (m : ℕ)
    (hm : m ∈ FOMC_MEETING_DATES.map Prod.fst)
    (hnone : implied m = none)
    (hok : (runCalculate implied).2 = none) :
    ((runCalculate implied).1.effr_start m).isSome = true ∧
    (runCalculate implied).1.effr_end m = none ∧
    (∀ p ∈ probOutputs (runCalculate implied).1, p.1 ≠ m) ∧
    (∀ m' ∈ FOMC_MEETING_DATES.map Prod.fst, (implied m').isSome = true →
      ((runCalculate implied).1.effr_end m').isSome = true) := by
  simp only [FOMC_MEETING_DATES, List.map_cons, List.map_nil, List.mem_cons,
    List.mem_singleton, List.not_mem_nil, or_false] at hm
  rcases hm with rfl | rfl | rfl <;>
    cases h8 : implied 8 <;> cases h10 : implied 10 <;> cases h9 : implied 9 <;>
      cases h11 : implied 11 <;> cases h12 : implied 12 <;>
        simp_all [runCalculate, nonMeetingLoop_run, nonMeetingResult, meetingLoop,
          runLoop, meetingStep_run_9, meetingStep_run_11, meetingStep_run_12,
          meetingStepResult, prevOr, probOutputs, FOMC_MEETING_DATES]

/-- C6 amended witness: with every quote missing, month 9 gets a start
entry, no end entry, and no probability output. -/
theorem C6_missing_quote_witness :
    ((runCalculate impliedC6).1.effr_start 9).isSome = true ∧
    (runCalculate impliedC6).1.effr_end 9 = none :=
  ⟨(C6_missing_quote_no_end_no_output impliedC6 9
      (by norm_num [FOMC_MEETING_DATES]) rfl
      (by norm_num [runCalculate, nonMeetingLoop, meetingLoop, runLoop,
        nonMeetingStep, meetingStep, St.empty, St.setStart, St.setEnd, impliedC6,
        NON_MEETING_MONTHS, FOMC_MEETING_DATES, List.enum, List.enumFrom])).1,
   (C6_missing_quote_no_end_no_output impliedC6 9
      (by norm_num [FOMC_MEETING_DATES]) rfl
      (by norm_num [runCalculate, nonMeetingLoop, meetingLoop, runLoop,
        nonMeetingStep, meetingStep, St.empty, St.setStart, St.setEnd, impliedC6,
        NON_MEETING_MONTHS, FOMC_MEETING_DATES, List.enum, List.enumFrom])).2.1⟩

/-- C7: over the whole anchor-building computation, any two assignments
ever made to the same month's `start_rate` (in temporal order, as recorded
by the assignment trace) carry the same value: once assigned, a start rate
is never changed to a different value. -/
theorem C7_start_rate_never_overwritten (implied : ℕ → Option ℚ) :
    List.Pairwise (fun a b => a.1 = b.1 → a.2 = b.2)
      (runCalculate implied).1.startTrace := by
  cases h8 : implied 8 <;> cases h10 : implied 10 <;> cases h9 : implied 9 <;>
    cases h11 : implied 11 <;> cases h12 : implied 12 <;>
      simp [runCalculate, nonMeetingLoop_run, nonMeetingResult, meetingLoop,
        runLoop, meetingStep_run_9, meetingStep_run_11, meetingStep_run_12,
        meetingStepResult, prevOr, h8, h10, h9, h11, h12, List.pairwise_cons]

/-- C8: every non-meeting month with an implied rate gets
`effr_end = implied rate`, and month 10's `start_rate` equals month 8's
`end_rate` (as partial values: when month 8's anchor is absent the linking
lookup raises and both are absent). -/
theorem C8_nonmeeting_end_and_link (implied : ℕ → Option ℚ) :
    (∀ m ∈ NON_MEETING_MONTHS, ∀ r, implied m = some r →
      (nonMeetingLoop implied NON_MEETING_MONTHS St.empty).1.effr_end m = some r) ∧
    (nonMeetingLoop implied NON_MEETING_MONTHS St.empty).1.effr_start 10 =
      (nonMeetingLoop implied NON_MEETING_MONTHS St.empty).1.effr_end 8 := by
  cases h8 : implied 8 <;> cases h10 : implied 10 <;>
    simp only [nonMeetingLoop_run] <;>
      simp [nonMeetingResult, NON_MEETING_MONTHS, h8, h10]

/-- C8 witness: with every quote present at rate 5, month 8's anchor end
is its implied rate 5. -/
theorem C8_nonmeeting_witness :
    (8 : ℕ) ∈ NON_MEETING_MONTHS ∧
    (nonMeetingLoop (fun _ => some 5) NON_MEETING_MONTHS St.empty).1.effr_end 8 = some 5 :=
  ⟨by norm_num [NON_MEETING_MONTHS],
    (C8_nonmeeting_end_and_link (fun _ => some 5)).1 8
      (by norm_num [NON_MEETING_MONTHS]) 5 rfl⟩

end Myenv
